import Mathlib

/-!
Verification of the SecureSight website security checker.

The development shallowly embeds the two core modules of the repository:

* `security_checks.py` — the Scanner: `check_https`, `check_security_headers`,
  `check_server_header` and `perform_security_scan`.  Network I/O is modelled
  by explicit environment functions `String → Except NetError HttpResponse`
  standing for `requests.head` / `requests.get`: an `Except.error` value models
  the exception the library raises, an `Except.ok` value models the response
  object (status code and header multimap).

* `ai_helper.py` — the Explainer: `generate_ai_prompt`,
  `_call_gemini_for_prompt`, the `functools.lru_cache` wrapper `_cached_call`
  and `generate_ai_explanation`.  The Gemini client is modelled by an oracle
  `String → String → Except String (Option GenaiResponse)` (an `Except.error`
  models a raised exception carrying `str(e)`); wall-clock time, the shared
  rate-limiter timestamp, the LRU cache and the log of outbound API calls are
  threaded through an explicit `AIState`.  Time is modelled by `ℚ`
  (`time.time()` reads `now`, `time.sleep d` advances `now` by `d`).

Python string primitives used by the code (`startswith`, `in`, `lower`,
`strip`) are embedded as executable functions on character lists.
-/

namespace SecureSight

/-! ### Python string primitives -/

/-- `listStartsWith l pat` : does `l` start with `pat`?  (Python `startswith`
restricted to character lists.) -/
def listStartsWith : List Char → List Char → Bool
  | _, [] => true
  | [], _ :: _ => false
  | a :: as, b :: bs => a == b && listStartsWith as bs

/-- Python `s.startswith(pre)`. -/
def pyStartsWith (s pre : String) : Bool :=
  listStartsWith s.data pre.data

/-- `listHasSub l pat` : does `pat` occur as a contiguous run inside `l`? -/
def listHasSub : List Char → List Char → Bool
  | [], pat => listStartsWith [] pat
  | a :: as, pat => listStartsWith (a :: as) pat || listHasSub as pat

/-- Python `sub in s` (substring containment). -/
def pyContains (s sub : String) : Bool :=
  listHasSub s.data sub.data

/-- ASCII lower-casing of one character (the fragment of Python `str.lower`
exercised by the code: header names and error messages are ASCII). -/
def charLower (c : Char) : Char :=
  if 65 ≤ c.toNat ∧ c.toNat ≤ 90 then Char.ofNat (c.toNat + 32) else c

/-- Python `s.lower()`. -/
def pyLower (s : String) : String :=
  ⟨s.data.map charLower⟩

/-- The whitespace characters stripped by Python `str.strip()` (ASCII part). -/
def pyIsSpace (c : Char) : Bool :=
  c == ' ' || c == '\t' || c == '\n' || c == '\r' || c == '\x0b' || c == '\x0c'

/-- Python `s.strip()` : drop whitespace from both ends. -/
def pyStrip (s : String) : String :=
  ⟨((s.data.dropWhile pyIsSpace).reverse.dropWhile pyIsSpace).reverse⟩

/-! ### Scanner data model (`security_checks.py`) -/

/-- One detected issue, as returned by the check functions
(a Python dict with keys `title`, `severity`, `details`, `fix`). -/
structure Finding where
  title : String
  severity : String
  details : String
  fix : String
deriving DecidableEq, Repr

/-- An HTTP response as far as the scanner inspects it: status code and
response headers.  `requests` exposes headers as a case-insensitive mapping;
membership and lookup below compare names case-insensitively. -/
structure HttpResponse where
  statusCode : Nat
  headers : List (String × String)
deriving DecidableEq, Repr

/-- The exception categories distinguished by `perform_security_scan`:
`requests.exceptions.Timeout`, `requests.exceptions.ConnectionError`, and
any other exception (carrying its message `str(e)`). -/
inductive NetError where
  | timeout
  | connectionError
  | other (msg : String)
deriving DecidableEq, Repr

/-- A network environment: what `requests.head` / `requests.get` does on each
URL during the scan under consideration. -/
abbrev Net := String → Except NetError HttpResponse

/-- The dictionary returned by `perform_security_scan`. -/
structure ScanResult where
  success : Bool
  statusCode : Option Nat
  issues : List Finding
  totalIssues : Nat
  message : String
deriving DecidableEq, Repr

/-- Case-insensitive header membership (`header in response.headers`). -/
def headerPresent (resp : HttpResponse) (name : String) : Bool :=
  resp.headers.any (fun p => pyLower p.1 == pyLower name)

/-- Case-insensitive header lookup (`response.headers["Server"]`), returning
the first matching entry. -/
def headerGet (resp : HttpResponse) (name : String) : Option String :=
  (resp.headers.find? (fun p => pyLower p.1 == pyLower name)).map (·.2)

/-! ### Scanner operations -/

/-- The Finding literal built by `check_https` (security_checks.py lines 28–33). -/
def missingHttpsFinding : Finding :=
  { title := "Missing HTTPS"
    severity := "High"
    details := "Website does not use HTTPS encryption. This means data sent between your browser and the website is not encrypted."
    fix := "Configure SSL/TLS certificate and redirect HTTP traffic to HTTPS. Most hosting providers offer free SSL certificates." }

/-- `check_https` (security_checks.py lines 16–34): purely inspects the URL
string; no network access. -/
def check_https (url : String) : Option Finding :=
  if ¬ pyStartsWith url "https://" then some missingHttpsFinding
  else none

/-- The `security_headers` dict of `check_security_headers`
(security_checks.py lines 50–57), in insertion order. -/
def security_headers : List (String × String) :=
  [ ("Content-Security-Policy", "Prevents XSS (code injection) attacks by controlling what resources can load")
  , ("Strict-Transport-Security", "Forces browser to always use HTTPS connection")
  , ("X-Frame-Options", "Prevents clickjacking attacks (embedding site in malicious frames)")
  , ("X-Content-Type-Options", "Prevents browser from guessing file types (blocks MIME-type attacks)")
  , ("Referrer-Policy", "Controls what information is sent when visiting other sites")
  , ("Permissions-Policy", "Controls which browser features (camera, microphone) can be used") ]

/-- The Finding appended by `check_security_headers` for one absent header
(security_checks.py lines 67–72). -/
def headerFinding (header description : String) : Finding :=
  { title := "Missing " ++ header
    severity := "Medium"
    details := "The " ++ header ++ " header is missing. " ++ description
    fix := "Add the '" ++ header ++ "' header to your web server configuration or application code." }

/-- `check_security_headers` (security_checks.py lines 37–77): one GET; for
each of the six reference headers missing from the response, append a Medium
finding; on any exception return the issues accumulated so far (none, since
the request is the first statement in the `try`). -/
def check_security_headers (url : String) (get : Net) : List Finding :=
  match get url with
  | .error _ => []
  | .ok resp =>
      security_headers.foldl
        (fun issues hd =>
          if ¬ headerPresent resp hd.1 then issues ++ [headerFinding hd.1 hd.2]
          else issues)
        []

/-- The Finding literal built by `check_server_header` for an exposed `Server`
header with value `serverInfo` (security_checks.py lines 98–103). -/
def serverFinding (serverInfo : String) : Finding :=
  { title := "Server Information Exposed"
    severity := "Medium"
    details := "Server header reveals: '" ++ serverInfo ++ "'. This helps attackers identify vulnerabilities specific to this server version."
    fix := "Remove or obfuscate the Server header by configuring your web server to hide this information." }

/-- `check_server_header` (security_checks.py lines 80–107): one GET; emit a
Medium finding quoting the `Server` header value when present; on any
exception return `None`. -/
def check_server_header (url : String) (get : Net) : Option Finding :=
  match get url with
  | .error _ => none
  | .ok resp =>
      match headerGet resp "Server" with
      | some serverInfo => some (serverFinding serverInfo)
      | none => none

/-- The URL normalization at the top of `perform_security_scan`
(security_checks.py lines 123–125). -/
def normalize_url (url : String) : String :=
  if ¬ (pyStartsWith url "http://" || pyStartsWith url "https://") then
    "https://" ++ url
  else url

/-- Failure message of the `requests.exceptions.Timeout` branch
(security_checks.py line 158). -/
def timeoutMsg : String :=
  "Error: Website took too long to respond (timeout). Please check the URL."

/-- Failure message of the `requests.exceptions.ConnectionError` branch
(security_checks.py line 166). -/
def connectionMsg : String :=
  "Error: Cannot connect to website. Please check the URL or internet connection."

/-- Failure message of the generic `except Exception` branch
(security_checks.py line 174). -/
def otherErrorMsg (e : String) : String :=
  "Error during scan: " ++ e

/-- The failure message `perform_security_scan` produces for each exception
category (security_checks.py lines 155–178). -/
def probeFailureMsg : NetError → String
  | .timeout => timeoutMsg
  | .connectionError => connectionMsg
  | .other m => otherErrorMsg m

/-- `perform_security_scan` (security_checks.py lines 110–178).  `head` and
`get` are the network environment for the HEAD probe and for the GET requests
issued by the two secondary checks. -/
def perform_security_scan (url : String) (head get : Net) : ScanResult :=
  let url := normalize_url url
  match head url with
  | .ok resp =>
      let issues :=
        (check_https url).toList
          ++ check_security_headers url get
          ++ (check_server_header url get).toList
      { success := true
        statusCode := some resp.statusCode
        issues := issues
        totalIssues := issues.length
        message := "Scan complete! Found " ++ toString issues.length ++ " security issues." }
  | .error .timeout =>
      { success := false, message := timeoutMsg
        issues := [], totalIssues := 0, statusCode := none }
  | .error .connectionError =>
      { success := false, message := connectionMsg
        issues := [], totalIssues := 0, statusCode := none }
  | .error (.other e) =>
      { success := false, message := otherErrorMsg e
        issues := [], totalIssues := 0, statusCode := none }

/-! ### Explainer data model (`ai_helper.py`) -/

/-- The prompt template of `generate_ai_prompt` (ai_helper.py lines 45–61),
before the final `strip()`: the f-string body with the four interpolated
fields. -/
def promptTemplate (title severity details fix : String) : String :=
  "\nExplain this web security issue to a beginner:\n\nIssue: " ++ title
    ++ "\nSeverity: " ++ severity
    ++ "\nDescription: " ++ details
    ++ "\nRecommended Fix: " ++ fix
    ++ "\n\nPlease explain:\n1. What does this mean in simple terms?\n2. Why is this a security risk?\n3. What could happen if not fixed?\n4. Step-by-step how to fix it\n5. How to verify the fix works\n\nKeep your explanation suitable for someone learning web security for the first time.\n"

/-- `generate_ai_prompt` (ai_helper.py lines 28–63).  The Finding always has
its four fields, so each `issue.get(key, default)` returns the field. -/
def generate_ai_prompt (issue : Finding) : String :=
  pyStrip (promptTemplate issue.title issue.severity issue.details issue.fix)

/-- The Gemini response object as far as `_call_gemini_for_prompt` inspects
it: `text = none` models a response without a truthy `text` attribute. -/
structure GenaiResponse where
  text : Option String
deriving DecidableEq, Repr

/-- The Gemini client as an oracle on (prompt, model): `Except.error e` models
`client.models.generate_content` raising an exception with `str(e) = e`;
`Except.ok none` models a falsy (absent) response object. -/
abbrev GenaiOracle := String → String → Except String (Option GenaiResponse)

/-- The mutable state of `ai_helper.py` plus a model of wall-clock time:
`lastCallTime` is the module global `_last_call_time`; `now` is what
`time.time()` returns (advanced by `time.sleep`); `cache` is the
`functools.lru_cache` table of `_cached_call`, most recent entry first;
`apiEvents` records the time of every outbound Gemini call, in order. -/
structure AIState where
  lastCallTime : ℚ
  now : ℚ
  cache : List ((String × String) × String)
  apiEvents : List ℚ
deriving DecidableEq, Repr

/-- `_MIN_CALL_INTERVAL = 0.8` (ai_helper.py line 25). -/
def MIN_CALL_INTERVAL : ℚ := 0.8

/-- The maximum entry count of the `lru_cache` (ai_helper.py line 100). -/
def CACHE_MAXSIZE : Nat := 256

/-- The rate-limiting block of `_call_gemini_for_prompt` (ai_helper.py lines
71–78), executed under `_last_call_lock`: compute the elapsed time since the
last call, sleep for the remainder of the minimum interval if it has not yet
passed, then record the current time as the last-call time. -/
def rateLimitWait (s : AIState) : AIState :=
  let elapsed := s.now - s.lastCallTime
  let s :=
    if elapsed < MIN_CALL_INTERVAL then
      { s with now := s.now + (MIN_CALL_INTERVAL - elapsed) }
    else s
  { s with lastCallTime := s.now }

/-- `_call_gemini_for_prompt` (ai_helper.py lines 66–96): rate-limit, issue
the API call (logged in `apiEvents`), then interpret the response object:
a truthy `text` is returned stripped; a truthy response without truthy text
and a falsy response yield the two fallback strings; a raised exception
propagates (`Except.error`). -/
def call_gemini_for_prompt (api : GenaiOracle) (promptText model : String)
    (s : AIState) : Except String String × AIState :=
  let s := rateLimitWait s
  let s := { s with apiEvents := s.apiEvents ++ [s.now] }
  match api promptText model with
  | .error e => (.error e, s)
  | .ok none =>
      (.ok "No response from Gemini API. Please check your internet connection and try again.", s)
  | .ok (some r) =>
      match r.text with
      | some t =>
          if t ≠ "" then (.ok (pyStrip t), s)
          else (.ok "Gemini API returned an empty response. Please try again.", s)
      | none => (.ok "Gemini API returned an empty response. Please try again.", s)

/-- Cache lookup: the `lru_cache` key is the full argument tuple
`(prompt_text, model)`. -/
def lruLookup (key : String × String) (cache : List ((String × String) × String)) :
    Option String :=
  (cache.find? (fun e => decide (e.1 = key))).map (·.2)

/-- `_cached_call` (ai_helper.py line 100): `functools.lru_cache(maxsize=256)`
around `_call_gemini_for_prompt`.  A hit returns the stored value and marks
the entry most recently used; a miss calls through and stores the result,
evicting the least recently used entry beyond the capacity; a raised
exception is not cached and propagates. -/
def cached_call (api : GenaiOracle) (promptText model : String) (s : AIState) :
    Except String String × AIState :=
  let key := (promptText, model)
  match lruLookup key s.cache with
  | some v =>
      (.ok v, { s with cache := (key, v) :: s.cache.eraseP (fun e => decide (e.1 = key)) })
  | none =>
      match call_gemini_for_prompt api promptText model s with
      | (.ok v, s') => (.ok v, { s' with cache := ((key, v) :: s'.cache).take CACHE_MAXSIZE })
      | (.error e, s') => (.error e, s')

/-- Configuration visible to `generate_ai_explanation`: the
`GEMINI_API_KEY` environment value (`none` models an unset variable) and
whether the `google-genai` import succeeded (`genai is not None`). -/
structure AIConfig where
  apiKey : Option String
  genaiAvailable : Bool
deriving DecidableEq, Repr

/-- Python truthiness of `os.getenv(...)`: unset or empty is falsy. -/
def pyTruthy (o : Option String) : Bool :=
  match o with
  | none => false
  | some s => s ≠ ""

/-- Advisory returned when the API key is missing (ai_helper.py lines 108–112). -/
def missingKeyMsg : String :=
  "⚠️ Gemini API key not found. To enable live AI explanations, add \"GEMINI_API_KEY\" to your .env file."

/-- Advisory returned when the `google-genai` package is missing
(ai_helper.py lines 114–117). -/
def missingPackageMsg : String :=
  "⚠️ The `google-genai` Python package is not installed. Install it with: `pip install google-genai`"

/-- Advisory of the quota/rate-limit branch (ai_helper.py line 126). -/
def quotaMsg : String :=
  "⚠️ API Quota Exceeded\n\nYour Gemini API quota has been exceeded. Please wait a few minutes before trying again, or upgrade your plan at https://ai.google.dev/pricing"

/-- Advisory of the authentication branch (ai_helper.py line 128). -/
def authMsg : String :=
  "⚠️ Authentication Error\n\nYour API key is invalid or has expired. Please check your GEMINI_API_KEY in the .env file."

/-- Advisory of the permission branch (ai_helper.py line 130). -/
def permissionMsg : String :=
  "⚠️ Permission Error\n\nYour API key doesn't have access. Make sure Gemini API is enabled in your Google Cloud Console."

/-- Advisory of the generic fallback branch (ai_helper.py line 132). -/
def genericErrorMsg (e : String) : String :=
  "⚠️ Error: " ++ e ++ "\n\nPlease check your internet connection and API key."

/-- The `except` branch of `generate_ai_explanation` (ai_helper.py lines
123–132): classify the exception message by substring inspection, in branch
order. -/
def classify_error (e : String) : String :=
  if pyContains e "429" || pyContains (pyLower e) "quota" then quotaMsg
  else if pyContains e "401" || pyContains (pyLower e) "unauthorized" then authMsg
  else if pyContains e "403" || pyContains (pyLower e) "permission" then permissionMsg
  else genericErrorMsg e

/-- `generate_ai_explanation` (ai_helper.py lines 103–132): advisory strings
for missing key / missing package; otherwise build the prompt, go through the
cached call, and convert any raised exception into a classified advisory
string.  Total: every path returns a string. -/
def generate_ai_explanation (cfg : AIConfig) (api : GenaiOracle) (issue : Finding)
    (model : String) (s : AIState) : String × AIState :=
  if ¬ pyTruthy cfg.apiKey then (missingKeyMsg, s)
  else if cfg.genaiAvailable = false then (missingPackageMsg, s)
  else
    let promptText := generate_ai_prompt issue
    match cached_call api promptText model s with
    | (.ok v, s') => (v, s')
    | (.error e, s') => (classify_error e, s')

/-! ### General lemmas about the string primitives -/

theorem stringExt (a b : String) (h : a.data = b.data) : a = b := by
  cases a
  cases b
  exact congrArg String.mk h

theorem listStartsWith_refl_append (pat v : List Char) :
    listStartsWith (pat ++ v) pat = true := by
  induction pat with
  | nil => cases v <;> rfl
  | cons a as ih => simp [listStartsWith, ih]

theorem listHasSub_of_startsWith (l pat : List Char)
    (h : listStartsWith l pat = true) : listHasSub l pat = true := by
  cases l with
  | nil => exact h
  | cons a as => simp [listHasSub, h]

theorem listHasSub_append (u pat v : List Char) :
    listHasSub (u ++ (pat ++ v)) pat = true := by
  induction u with
  | nil => exact listHasSub_of_startsWith _ _ (listStartsWith_refl_append pat v)
  | cons c u' ih => simp [listHasSub, ih]

theorem pyContains_of_data (s pat : String) (u v : List Char)
    (h : s.data = u ++ (pat.data ++ v)) : pyContains s pat = true := by
  unfold pyContains
  rw [h]
  exact listHasSub_append u pat.data v

theorem pyContains_concat (a x b : String) : pyContains (a ++ x ++ b) x = true := by
  apply pyContains_of_data _ _ a.data b.data
  simp [String.data_append, List.append_assoc]

theorem append_left_ne_empty (a b : String) (ha : a ≠ "") : a ++ b ≠ "" := by
  intro h
  apply ha
  have hd : (a ++ b).data = ("" : String).data := congrArg String.data h
  rw [String.data_append] at hd
  have : a.data ++ b.data = [] := hd
  exact stringExt a "" (List.append_eq_nil.mp this).1

/-! ### Scanner lemmas -/

theorem check_security_headers_ok (url : String) (get : Net) (resp : HttpResponse)
    (h : get url = .ok resp) :
    check_security_headers url get
      = (security_headers.filter (fun hd => ! headerPresent resp hd.1)).map
          (fun hd => headerFinding hd.1 hd.2) := by
  unfold check_security_headers
  rw [h]
  have key : ∀ (l : List (String × String)) (init : List Finding),
      l.foldl
        (fun issues hd =>
          if ¬ headerPresent resp hd.1 then issues ++ [headerFinding hd.1 hd.2]
          else issues)
        init
      = init ++ (l.filter (fun hd => ! headerPresent resp hd.1)).map
          (fun hd => headerFinding hd.1 hd.2) := by
    intro l
    induction l with
    | nil => intro init; simp
    | cons hd tl ih =>
        intro init
        rw [List.foldl_cons]
        by_cases hp : headerPresent resp hd.1
        · rw [if_neg (by simp [hp]), ih, List.filter_cons]
          simp [hp]
        · rw [if_pos hp, ih, List.filter_cons]
          simp [hp, List.append_assoc]
  simpa using key security_headers []

theorem normalize_url_of_schemeless (url : String)
    (h1 : pyStartsWith url "http://" = false)
    (h2 : pyStartsWith url "https://" = false) :
    normalize_url url = "https://" ++ url := by
  unfold normalize_url
  simp [h1, h2]

theorem normalize_url_of_secure (url : String)
    (h : pyStartsWith url "https://" = true) :
    normalize_url url = url := by
  unfold normalize_url
  simp [h]

theorem pyStartsWith_append_self (pre s : String) :
    pyStartsWith (pre ++ s) pre = true := by
  unfold pyStartsWith
  rw [String.data_append]
  exact listStartsWith_refl_append pre.data s.data

theorem perform_of_normalize_eq (u v : String) (head get : Net)
    (h : normalize_url u = normalize_url v) :
    perform_security_scan u head get = perform_security_scan v head get := by
  unfold perform_security_scan
  rw [h]

/-! ### Lemmas about `pyStrip` and the rendered prompt -/

theorem dropWhile_append_of_ne_nil (p : Char → Bool) (l₁ l₂ : List Char)
    (h : l₁.dropWhile p ≠ []) :
    (l₁ ++ l₂).dropWhile p = l₁.dropWhile p ++ l₂ := by
  induction l₁ with
  | nil => exact absurd rfl h
  | cons a as ih =>
      by_cases hp : p a
      · rw [List.dropWhile_cons_of_pos hp] at h
        rw [List.cons_append, List.dropWhile_cons_of_pos hp, List.dropWhile_cons_of_pos hp]
        exact ih h
      · rw [List.cons_append, List.dropWhile_cons_of_neg hp, List.dropWhile_cons_of_neg hp]
        simp

theorem pyStrip_data (s : String) :
    (pyStrip s).data
      = ((s.data.dropWhile pyIsSpace).reverse.dropWhile pyIsSpace).reverse := rfl

theorem listHasSub_append_right (u v pat : List Char) (h : listHasSub v pat = true) :
    listHasSub (u ++ v) pat = true := by
  induction u with
  | nil => exact h
  | cons a as ih => simp [listHasSub, ih]

theorem listHasSub_self_append (pat v : List Char) : listHasSub (pat ++ v) pat = true :=
  listHasSub_of_startsWith _ _ (listStartsWith_refl_append pat v)

set_option maxRecDepth 16384 in
/-- The rendered prompt, decomposed: `strip` removes exactly the leading and
trailing newline of the template, leaving the fixed text with the four
finding fields interpolated. -/
theorem generate_ai_prompt_data (f : Finding) :
    (generate_ai_prompt f).data
      = "Explain this web security issue to a beginner:\n\nIssue: ".data
        ++ (f.title.data
        ++ ("\nSeverity: ".data
        ++ (f.severity.data
        ++ ("\nDescription: ".data
        ++ (f.details.data
        ++ ("\nRecommended Fix: ".data
        ++ (f.fix.data
        ++ "\n\nPlease explain:\n1. What does this mean in simple terms?\n2. Why is this a security risk?\n3. What could happen if not fixed?\n4. Step-by-step how to fix it\n5. How to verify the fix works\n\nKeep your explanation suitable for someone learning web security for the first time.".data))))))) := by
  unfold generate_ai_prompt
  rw [pyStrip_data]
  have htempl : (promptTemplate f.title f.severity f.details f.fix).data
      = "\nExplain this web security issue to a beginner:\n\nIssue: ".data
        ++ (f.title.data
        ++ ("\nSeverity: ".data
        ++ (f.severity.data
        ++ ("\nDescription: ".data
        ++ (f.details.data
        ++ ("\nRecommended Fix: ".data
        ++ (f.fix.data
        ++ "\n\nPlease explain:\n1. What does this mean in simple terms?\n2. Why is this a security risk?\n3. What could happen if not fixed?\n4. Step-by-step how to fix it\n5. How to verify the fix works\n\nKeep your explanation suitable for someone learning web security for the first time.\n".data))))))) := by
    unfold promptTemplate
    simp [String.data_append, List.append_assoc]
  rw [htempl]
  rw [dropWhile_append_of_ne_nil pyIsSpace _ _ (by decide)]
  have hfront : "\nExplain this web security issue to a beginner:\n\nIssue: ".data.dropWhile pyIsSpace
      = "Explain this web security issue to a beginner:\n\nIssue: ".data := by decide
  rw [hfront]
  simp only [List.reverse_append, List.append_assoc]
  have hEne : "\n\nPlease explain:\n1. What does this mean in simple terms?\n2. Why is this a security risk?\n3. What could happen if not fixed?\n4. Step-by-step how to fix it\n5. How to verify the fix works\n\nKeep your explanation suitable for someone learning web security for the first time.\n".data.reverse.dropWhile pyIsSpace ≠ [] := by decide
  rw [dropWhile_append_of_ne_nil pyIsSpace _ _ hEne]
  have hback : "\n\nPlease explain:\n1. What does this mean in simple terms?\n2. Why is this a security risk?\n3. What could happen if not fixed?\n4. Step-by-step how to fix it\n5. How to verify the fix works\n\nKeep your explanation suitable for someone learning web security for the first time.\n".data.reverse.dropWhile pyIsSpace
      = "\n\nPlease explain:\n1. What does this mean in simple terms?\n2. Why is this a security risk?\n3. What could happen if not fixed?\n4. Step-by-step how to fix it\n5. How to verify the fix works\n\nKeep your explanation suitable for someone learning web security for the first time.".data.reverse := by decide
  rw [hback]
  simp only [List.reverse_append, List.reverse_reverse, List.append_assoc]

/-! ### Claims about the Scanner -/

/-- C1: if the initial HEAD reachability probe raises a timeout, a connection
failure, or any other error, `perform_security_scan` returns a ScanResult with
`success = false`, empty issues, `total_issues = 0`, absent status code, and a
message specific to the failure category; the three category messages are
pairwise distinct, and no exception escapes (the embedding is total). -/
theorem scan_probe_failure (url : String) (head get : Net) (e : NetError)
    (h : head (normalize_url url) = .error e) :
    perform_security_scan url head get
      = { success := false
          statusCode := none
          issues := []
          totalIssues := 0
          message := probeFailureMsg e }
    ∧ timeoutMsg ≠ connectionMsg
    ∧ (∀ m, otherErrorMsg m ≠ timeoutMsg)
    ∧ (∀ m, otherErrorMsg m ≠ connectionMsg) := by
  refine ⟨?_, by decide, ?_, ?_⟩
  · simp only [perform_security_scan]
    rw [h]
    cases e <;> rfl
  · intro m heq
    have hx : pyContains (otherErrorMsg m) "Error during scan:" = true := by
      apply pyContains_of_data _ _ [] (' ' :: m.data)
      show ("Error during scan: " ++ m).data
          = [] ++ ("Error during scan:".data ++ (' ' :: m.data))
      rw [String.data_append]
      rfl
    rw [heq] at hx
    exact absurd hx (by decide)
  · intro m heq
    have hx : pyContains (otherErrorMsg m) "Error during scan:" = true := by
      apply pyContains_of_data _ _ [] (' ' :: m.data)
      show ("Error during scan: " ++ m).data
          = [] ++ ("Error during scan:".data ++ (' ' :: m.data))
      rw [String.data_append]
      rfl
    rw [heq] at hx
    exact absurd hx (by decide)

/-- Witness for C1 at a concrete timed-out probe. -/
theorem scan_probe_failure_witness :
    perform_security_scan "example.com"
        (fun _ => Except.error NetError.timeout) (fun _ => Except.error NetError.timeout)
      = { success := false
          statusCode := none
          issues := []
          totalIssues := 0
          message := timeoutMsg }
    ∧ timeoutMsg ≠ connectionMsg
    ∧ (∀ m, otherErrorMsg m ≠ timeoutMsg)
    ∧ (∀ m, otherErrorMsg m ≠ connectionMsg) :=
  scan_probe_failure "example.com"
    (fun _ => Except.error NetError.timeout) (fun _ => Except.error NetError.timeout)
    NetError.timeout rfl

/-- C2: given the GET response, `check_security_headers` emits exactly one
Medium finding per reference header absent from the response, in the fixed
reference order; for a response missing all six, exactly six Medium findings
in that order. -/
theorem check_security_headers_missing (url : String) (get : Net) (resp : HttpResponse)
    (h : get url = .ok resp) :
    check_security_headers url get
      = (security_headers.filter (fun hd => ! headerPresent resp hd.1)).map
          (fun hd => headerFinding hd.1 hd.2)
    ∧ (∀ f ∈ check_security_headers url get, f.severity = "Medium")
    ∧ ((∀ hd ∈ security_headers, headerPresent resp hd.1 = false) →
        check_security_headers url get
            = security_headers.map (fun hd => headerFinding hd.1 hd.2)
          ∧ (check_security_headers url get).length = 6) := by
  have hc := check_security_headers_ok url get resp h
  refine ⟨hc, ?_, ?_⟩
  · intro f hf
    rw [hc] at hf
    simp only [List.mem_map] at hf
    obtain ⟨hd, _, rfl⟩ := hf
    rfl
  · intro hall
    have hfilter : security_headers.filter (fun hd => ! headerPresent resp hd.1)
        = security_headers := by
      apply List.filter_eq_self.mpr
      intro hd hmem
      simp [hall hd hmem]
    rw [hc, hfilter]
    exact ⟨rfl, rfl⟩

/-- Witness for C2 at a concrete header-free response. -/
theorem check_security_headers_missing_witness :
    check_security_headers "https://example.com" (fun _ => Except.ok ⟨200, []⟩)
      = security_headers.map (fun hd => headerFinding hd.1 hd.2)
    ∧ (check_security_headers "https://example.com" (fun _ => Except.ok ⟨200, []⟩)).length = 6 :=
  (check_security_headers_missing "https://example.com"
      (fun _ => Except.ok ⟨200, []⟩) ⟨200, []⟩ rfl).2.2 (by decide)

/-- C3: `check_https` returns the High-severity finding iff the URL string
does not start with "https://", and `none` otherwise; it is a pure function
of the URL string (its embedding takes no network environment). -/
theorem check_https_characterization (url : String) :
    (check_https url = none ↔ pyStartsWith url "https://" = true)
    ∧ (pyStartsWith url "https://" = false →
        check_https url = some missingHttpsFinding
          ∧ missingHttpsFinding.severity = "High") := by
  unfold check_https
  by_cases h : pyStartsWith url "https://" <;> simp [h, missingHttpsFinding]

/-- Witness for C3 at the two spec examples. -/
theorem check_https_characterization_witness :
    check_https "http://example.com" = some missingHttpsFinding
    ∧ missingHttpsFinding.severity = "High"
    ∧ check_https "https://example.com" = none :=
  ⟨((check_https_characterization "http://example.com").2 (by decide)).1,
   ((check_https_characterization "http://example.com").2 (by decide)).2,
   (check_https_characterization "https://example.com").1.mpr (by decide)⟩

/-- C6: a URL without a recognized scheme prefix scans identically to the
same URL with "https://" prepended. -/
theorem scan_schemeless_normalization (url : String) (head get : Net)
    (h1 : pyStartsWith url "http://" = false)
    (h2 : pyStartsWith url "https://" = false) :
    perform_security_scan url head get
      = perform_security_scan ("https://" ++ url) head get := by
  apply perform_of_normalize_eq
  rw [normalize_url_of_schemeless url h1 h2,
    normalize_url_of_secure _ (pyStartsWith_append_self "https://" url)]

/-- Witness for C6 at `scan("example.com")` against a concrete environment. -/
theorem scan_schemeless_normalization_witness :
    perform_security_scan "example.com"
        (fun _ => Except.ok ⟨200, [("Server", "nginx")]⟩)
        (fun _ => Except.ok ⟨200, [("Server", "nginx")]⟩)
      = perform_security_scan "https://example.com"
          (fun _ => Except.ok ⟨200, [("Server", "nginx")]⟩)
          (fun _ => Except.ok ⟨200, [("Server", "nginx")]⟩) :=
  scan_schemeless_normalization "example.com" _ _ (by decide) (by decide)

/-- C9: every finding emitted by any of the three rules has severity "High"
or "Medium" (never "Low") and all four fields non-empty. -/
theorem rule_findings_invariant (url : String) (get : Net) (f : Finding)
    (h : f ∈ (check_https url).toList ∨ f ∈ check_security_headers url get
        ∨ f ∈ (check_server_header url get).toList) :
    (f.severity = "High" ∨ f.severity = "Medium")
    ∧ f.title ≠ "" ∧ f.severity ≠ "" ∧ f.details ≠ "" ∧ f.fix ≠ "" := by
  rcases h with h | h | h
  · unfold check_https at h
    by_cases hs : pyStartsWith url "https://"
    · simp [hs] at h
    · simp [hs] at h
      subst h
      exact ⟨Or.inl rfl, by decide, by decide, by decide, by decide⟩
  · rcases hget : get url with e | resp
    · unfold check_security_headers at h
      rw [hget] at h
      simp at h
    · rw [check_security_headers_ok url get resp hget] at h
      simp only [List.mem_map] at h
      obtain ⟨hd, _, rfl⟩ := h
      refine ⟨Or.inr rfl, ?_, (by decide : ("Medium" : String) ≠ ""), ?_, ?_⟩
      · show "Missing " ++ hd.1 ≠ ""
        exact append_left_ne_empty _ _ (by decide)
      · show "The " ++ hd.1 ++ " header is missing. " ++ hd.2 ≠ ""
        exact append_left_ne_empty _ _
          (append_left_ne_empty _ _ (append_left_ne_empty "The " _ (by decide)))
      · show "Add the '" ++ hd.1
            ++ "' header to your web server configuration or application code." ≠ ""
        exact append_left_ne_empty _ _ (append_left_ne_empty "Add the '" _ (by decide))
  · rcases hget : get url with e | resp
    · unfold check_server_header at h
      rw [hget] at h
      simp at h
    · unfold check_server_header at h
      rw [hget] at h
      rcases hsv : headerGet resp "Server" with _ | info
      · simp [hsv] at h
      · simp [hsv] at h
        subst h
        refine ⟨Or.inr rfl,
          (by decide : ("Server Information Exposed" : String) ≠ ""),
          (by decide : ("Medium" : String) ≠ ""), ?_,
          (by decide : ("Remove or obfuscate the Server header by configuring your web server to hide this information." : String) ≠ "")⟩
        show "Server header reveals: '" ++ info
            ++ "'. This helps attackers identify vulnerabilities specific to this server version." ≠ ""
        exact append_left_ne_empty _ _
          (append_left_ne_empty "Server header reveals: '" _ (by decide))

/-- Witness for C9 at the HTTPS rule on a plain-HTTP URL. -/
theorem rule_findings_invariant_witness :
    (missingHttpsFinding.severity = "High" ∨ missingHttpsFinding.severity = "Medium")
    ∧ missingHttpsFinding.title ≠ "" ∧ missingHttpsFinding.severity ≠ ""
    ∧ missingHttpsFinding.details ≠ "" ∧ missingHttpsFinding.fix ≠ "" :=
  rule_findings_invariant "http://example.com" (fun _ => Except.error NetError.timeout)
    missingHttpsFinding (Or.inl (by decide))

/-- C10: the scheme tests are case-sensitive exact prefix matches:
"HTTPS://example.com" gets the High "Missing HTTPS" finding, and
`perform_security_scan` treats it as scheme-less, prefixing "https://". -/
theorem scheme_checks_case_sensitive :
    check_https "HTTPS://example.com" = some missingHttpsFinding
    ∧ normalize_url "HTTPS://example.com" = "https://" ++ "HTTPS://example.com"
    ∧ ∀ head get : Net,
        perform_security_scan "HTTPS://example.com" head get
          = perform_security_scan "https://HTTPS://example.com" head get := by
  refine ⟨by decide, by decide, fun head get => ?_⟩
  exact perform_of_normalize_eq _ _ head get (by decide)

/-! ### Claims about the prompt builder -/

/-- C8: `generate_ai_prompt` depends only on the Finding's four fields (same
fields in, identical text out — the embedding is a pure function, matching the
Python function which reads no state), and the rendered text embeds the
title, severity, details and fix together with the five fixed instructional
sub-questions of the template. -/
theorem prompt_deterministic_and_embeds (f g : Finding)
    (ht : g.title = f.title) (hs : g.severity = f.severity)
    (hd : g.details = f.details) (hx : g.fix = f.fix) :
    generate_ai_prompt g = generate_ai_prompt f
    ∧ pyContains (generate_ai_prompt f) f.title = true
    ∧ pyContains (generate_ai_prompt f) f.severity = true
    ∧ pyContains (generate_ai_prompt f) f.details = true
    ∧ pyContains (generate_ai_prompt f) f.fix = true
    ∧ pyContains (generate_ai_prompt f) "1. What does this mean in simple terms?" = true
    ∧ pyContains (generate_ai_prompt f) "2. Why is this a security risk?" = true
    ∧ pyContains (generate_ai_prompt f) "3. What could happen if not fixed?" = true
    ∧ pyContains (generate_ai_prompt f) "4. Step-by-step how to fix it" = true
    ∧ pyContains (generate_ai_prompt f) "5. How to verify the fix works" = true := by
  refine ⟨?_, ?_, ?_, ?_, ?_, ?_, ?_, ?_, ?_, ?_⟩
  · unfold generate_ai_prompt
    rw [ht, hs, hd, hx]
  · unfold pyContains
    rw [generate_ai_prompt_data f]
    exact listHasSub_append_right _ _ _ (listHasSub_self_append _ _)
  · unfold pyContains
    rw [generate_ai_prompt_data f]
    exact listHasSub_append_right _ _ _ (listHasSub_append_right _ _ _
      (listHasSub_append_right _ _ _ (listHasSub_self_append _ _)))
  · unfold pyContains
    rw [generate_ai_prompt_data f]
    exact listHasSub_append_right _ _ _ (listHasSub_append_right _ _ _
      (listHasSub_append_right _ _ _ (listHasSub_append_right _ _ _
        (listHasSub_append_right _ _ _ (listHasSub_self_append _ _)))))
  · unfold pyContains
    rw [generate_ai_prompt_data f]
    exact listHasSub_append_right _ _ _ (listHasSub_append_right _ _ _
      (listHasSub_append_right _ _ _ (listHasSub_append_right _ _ _
        (listHasSub_append_right _ _ _ (listHasSub_append_right _ _ _
          (listHasSub_append_right _ _ _ (listHasSub_self_append _ _)))))))
  all_goals unfold pyContains
  all_goals rw [generate_ai_prompt_data f]
  all_goals refine listHasSub_append_right _ _ _ (listHasSub_append_right _ _ _
    (listHasSub_append_right _ _ _ (listHasSub_append_right _ _ _
      (listHasSub_append_right _ _ _ (listHasSub_append_right _ _ _
        (listHasSub_append_right _ _ _ (listHasSub_append_right _ _ _ ?_)))))))
  all_goals decide

/-- Witness for C8 at the concrete HTTPS finding. -/
theorem prompt_deterministic_and_embeds_witness :
    generate_ai_prompt missingHttpsFinding = generate_ai_prompt missingHttpsFinding
    ∧ pyContains (generate_ai_prompt missingHttpsFinding) "Missing HTTPS" = true
    ∧ pyContains (generate_ai_prompt missingHttpsFinding)
        "1. What does this mean in simple terms?" = true := by
  have h := prompt_deterministic_and_embeds missingHttpsFinding missingHttpsFinding
    rfl rfl rfl rfl
  exact ⟨h.1, h.2.1, h.2.2.2.2.2.1⟩

/-! ### Explainer state lemmas -/

theorem rateLimitWait_apiEvents (s : AIState) :
    (rateLimitWait s).apiEvents = s.apiEvents := by
  unfold rateLimitWait
  by_cases h : s.now - s.lastCallTime < MIN_CALL_INTERVAL <;> simp [h]

theorem rateLimitWait_cache (s : AIState) : (rateLimitWait s).cache = s.cache := by
  unfold rateLimitWait
  by_cases h : s.now - s.lastCallTime < MIN_CALL_INTERVAL <;> simp [h]

theorem rateLimitWait_last_eq_now (s : AIState) :
    (rateLimitWait s).lastCallTime = (rateLimitWait s).now := by
  unfold rateLimitWait
  by_cases h : s.now - s.lastCallTime < MIN_CALL_INTERVAL <;> simp [h]

/-- The rate limiter never hands out a call slot earlier than one minimum
interval after the recorded last call. -/
theorem rateLimitWait_now_ge (s : AIState) :
    s.lastCallTime + MIN_CALL_INTERVAL ≤ (rateLimitWait s).now := by
  unfold rateLimitWait
  by_cases h : s.now - s.lastCallTime < MIN_CALL_INTERVAL
  · simp only [h, if_true]
    linarith
  · simp only [h, if_false]
    push_neg at h
    linarith

/-- One pass through `_call_gemini_for_prompt` appends exactly one API event
at the post-wait time, records that time as the last-call time (and current
time), and leaves the cache untouched — regardless of the call's outcome. -/
theorem call_gemini_stateFacts (api : GenaiOracle) (p m : String) (s : AIState) :
    ((call_gemini_for_prompt api p m s).2).apiEvents = s.apiEvents ++ [(rateLimitWait s).now]
    ∧ ((call_gemini_for_prompt api p m s).2).lastCallTime = (rateLimitWait s).now
    ∧ ((call_gemini_for_prompt api p m s).2).now = (rateLimitWait s).now
    ∧ ((call_gemini_for_prompt api p m s).2).cache = s.cache := by
  unfold call_gemini_for_prompt
  rcases hapi : api p m with e | o
  · simp [hapi, rateLimitWait_apiEvents, rateLimitWait_last_eq_now, rateLimitWait_cache]
  · rcases o with _ | r
    · simp [hapi, rateLimitWait_apiEvents, rateLimitWait_last_eq_now, rateLimitWait_cache]
    · rcases hrt : r.text with _ | t
      · simp [hapi, hrt, rateLimitWait_apiEvents, rateLimitWait_last_eq_now,
          rateLimitWait_cache]
      · by_cases hne : t = ""
        · simp [hapi, hrt, hne, rateLimitWait_apiEvents, rateLimitWait_last_eq_now,
            rateLimitWait_cache]
        · simp [hapi, hrt, hne, rateLimitWait_apiEvents, rateLimitWait_last_eq_now,
            rateLimitWait_cache]

theorem call_gemini_fst_err (api : GenaiOracle) (p m : String) (s : AIState) (e : String)
    (h : api p m = .error e) :
    (call_gemini_for_prompt api p m s).1 = .error e := by
  unfold call_gemini_for_prompt
  simp [h]

theorem call_gemini_fst_ok (api : GenaiOracle) (p m : String) (s : AIState)
    (r : Option GenaiResponse) (h : api p m = .ok r) :
    ∃ v, (call_gemini_for_prompt api p m s).1 = .ok v := by
  unfold call_gemini_for_prompt
  rcases r with _ | r
  · refine ⟨"No response from Gemini API. Please check your internet connection and try again.", ?_⟩
    simp [h]
  · rcases hrt : r.text with _ | t
    · refine ⟨"Gemini API returned an empty response. Please try again.", ?_⟩
      simp [h, hrt]
    · by_cases hne : t = ""
      · refine ⟨"Gemini API returned an empty response. Please try again.", ?_⟩
        simp [h, hrt, hne]
      · refine ⟨pyStrip t, ?_⟩
        simp [h, hrt, hne]

theorem lruLookup_cons_self (key : String × String) (v : String)
    (rest : List ((String × String) × String)) :
    lruLookup key ((key, v) :: rest) = some v := by
  simp [lruLookup, List.find?_cons_of_pos]

/-- On a cache miss whose external call raises `e`, `generate_ai_explanation`
returns the classified advisory for `e`. -/
theorem gen_of_err (cfg : AIConfig) (api : GenaiOracle) (issue : Finding)
    (model : String) (s : AIState) (e : String)
    (hkey : pyTruthy cfg.apiKey = true) (hgenai : cfg.genaiAvailable = true)
    (hmiss : lruLookup (generate_ai_prompt issue, model) s.cache = none)
    (herr : api (generate_ai_prompt issue) model = .error e) :
    (generate_ai_explanation cfg api issue model s).1 = classify_error e := by
  have hfst := call_gemini_fst_err api (generate_ai_prompt issue) model s e herr
  rcases hcg : call_gemini_for_prompt api (generate_ai_prompt issue) model s with ⟨cr, s2⟩
  rw [hcg] at hfst
  simp only at hfst
  subst hfst
  simp [generate_ai_explanation, cached_call, hkey, hgenai, hmiss, hcg]

/-! ### Claims about the Explainer -/

/-- C4: `generate_ai_explanation` never raises (the embedding is a total
function into strings); when the external call raises `e` it returns the
advisory classified from `e`, which differentiates the quota/rate-limit,
authentication, and permission categories in the code's branch order, with a
generic fallback advisory (mentioning `e`) otherwise; the four advisories are
pairwise distinct. -/
theorem explain_error_classification (cfg : AIConfig) (api : GenaiOracle)
    (issue : Finding) (model : String) (s : AIState) (e : String)
    (hkey : pyTruthy cfg.apiKey = true) (hgenai : cfg.genaiAvailable = true)
    (hmiss : lruLookup (generate_ai_prompt issue, model) s.cache = none)
    (herr : api (generate_ai_prompt issue) model = .error e) :
    (generate_ai_explanation cfg api issue model s).1 = classify_error e
    ∧ (pyContains e "429" = true ∨ pyContains (pyLower e) "quota" = true →
        classify_error e = quotaMsg)
    ∧ (pyContains e "429" = false → pyContains (pyLower e) "quota" = false →
        pyContains e "401" = true ∨ pyContains (pyLower e) "unauthorized" = true →
        classify_error e = authMsg)
    ∧ (pyContains e "429" = false → pyContains (pyLower e) "quota" = false →
        pyContains e "401" = false → pyContains (pyLower e) "unauthorized" = false →
        pyContains e "403" = true ∨ pyContains (pyLower e) "permission" = true →
        classify_error e = permissionMsg)
    ∧ (pyContains e "429" = false → pyContains (pyLower e) "quota" = false →
        pyContains e "401" = false → pyContains (pyLower e) "unauthorized" = false →
        pyContains e "403" = false → pyContains (pyLower e) "permission" = false →
        classify_error e = genericErrorMsg e)
    ∧ quotaMsg ≠ authMsg ∧ quotaMsg ≠ permissionMsg ∧ authMsg ≠ permissionMsg
    ∧ (∀ m, genericErrorMsg m ≠ quotaMsg)
    ∧ (∀ m, genericErrorMsg m ≠ authMsg)
    ∧ (∀ m, genericErrorMsg m ≠ permissionMsg) := by
  refine ⟨gen_of_err cfg api issue model s e hkey hgenai hmiss herr,
    ?_, ?_, ?_, ?_, by decide, by decide, by decide, ?_, ?_, ?_⟩
  · intro h
    rcases h with h | h <;> simp [classify_error, h]
  · intro h429 hq h
    rcases h with h | h <;> simp [classify_error, h429, hq, h]
  · intro h429 hq h401 hu h
    rcases h with h | h <;> simp [classify_error, h429, hq, h401, hu, h]
  · intro h429 hq h401 hu h403 hp
    simp [classify_error, h429, hq, h401, hu, h403, hp]
  · intro m heq
    have hx : pyContains (genericErrorMsg m) "⚠️ Error:" = true := by
      apply pyContains_of_data _ _ []
        (' ' :: (m.data ++ "\n\nPlease check your internet connection and API key.".data))
      show (("⚠️ Error: " ++ m) ++ "\n\nPlease check your internet connection and API key.").data
          = [] ++ ("⚠️ Error:".data
              ++ (' ' :: (m.data ++ "\n\nPlease check your internet connection and API key.".data)))
      simp only [String.data_append, List.nil_append, List.append_assoc]
      rfl
    rw [heq] at hx
    exact absurd hx (by decide)
  · intro m heq
    have hx : pyContains (genericErrorMsg m) "⚠️ Error:" = true := by
      apply pyContains_of_data _ _ []
        (' ' :: (m.data ++ "\n\nPlease check your internet connection and API key.".data))
      show (("⚠️ Error: " ++ m) ++ "\n\nPlease check your internet connection and API key.").data
          = [] ++ ("⚠️ Error:".data
              ++ (' ' :: (m.data ++ "\n\nPlease check your internet connection and API key.".data)))
      simp only [String.data_append, List.nil_append, List.append_assoc]
      rfl
    rw [heq] at hx
    exact absurd hx (by decide)
  · intro m heq
    have hx : pyContains (genericErrorMsg m) "⚠️ Error:" = true := by
      apply pyContains_of_data _ _ []
        (' ' :: (m.data ++ "\n\nPlease check your internet connection and API key.".data))
      show (("⚠️ Error: " ++ m) ++ "\n\nPlease check your internet connection and API key.").data
          = [] ++ ("⚠️ Error:".data
              ++ (' ' :: (m.data ++ "\n\nPlease check your internet connection and API key.".data)))
      simp only [String.data_append, List.nil_append, List.append_assoc]
      rfl
    rw [heq] at hx
    exact absurd hx (by decide)

/-- Witness for C4: a concrete 429 failure is classified as the quota
advisory. -/
theorem explain_error_classification_witness :
    (generate_ai_explanation ⟨some "key", true⟩
        (fun _ _ => Except.error "429 Too Many Requests") missingHttpsFinding
        "gemini-2.0-flash" ⟨0, 0, [], []⟩).1
      = classify_error "429 Too Many Requests"
    ∧ classify_error "429 Too Many Requests" = quotaMsg := by
  have h := explain_error_classification ⟨some "key", true⟩
    (fun _ _ => Except.error "429 Too Many Requests") missingHttpsFinding
    "gemini-2.0-flash" ⟨0, 0, [], []⟩ "429 Too Many Requests"
    (by decide) rfl rfl rfl
  exact ⟨h.1, h.2.1 (Or.inl (by decide))⟩

/-- If a run of `generate_ai_explanation` produced exactly one new API event
at time `t`, then `t` is recorded as the last-call time of the resulting
state, and `t` is at least one minimum interval after the starting state's
last-call time. -/
theorem gen_event (cfg : AIConfig) (api : GenaiOracle) (issue : Finding)
    (model : String) (s : AIState) (t : ℚ)
    (h : ((generate_ai_explanation cfg api issue model s).2).apiEvents
        = s.apiEvents ++ [t]) :
    ((generate_ai_explanation cfg api issue model s).2).lastCallTime = t
    ∧ s.lastCallTime + MIN_CALL_INTERVAL ≤ t := by
  by_cases hkey : pyTruthy cfg.apiKey
  case neg =>
    rw [show generate_ai_explanation cfg api issue model s = (missingKeyMsg, s) from by
      simp [generate_ai_explanation, hkey]] at h
    have := congrArg List.length h
    simp at this
  case pos =>
  rcases hgen : cfg.genaiAvailable with _ | _
  · rw [show generate_ai_explanation cfg api issue model s = (missingPackageMsg, s) from by
      simp [generate_ai_explanation, hkey, hgen]] at h
    have := congrArg List.length h
    simp at this
  · rcases hl : lruLookup (generate_ai_prompt issue, model) s.cache with _ | v
    · rcases hcg : call_gemini_for_prompt api (generate_ai_prompt issue) model s with ⟨cr, s2⟩
      have hfacts := call_gemini_stateFacts api (generate_ai_prompt issue) model s
      rw [hcg] at hfacts
      simp only at hfacts
      obtain ⟨hev, hlast, hnowx, hcache⟩ := hfacts
      rcases cr with e | v
      · have hgenEq : generate_ai_explanation cfg api issue model s
            = (classify_error e, s2) := by
          simp [generate_ai_explanation, cached_call, hkey, hgen, hl, hcg]
        rw [hgenEq] at h ⊢
        simp only at h ⊢
        have hw : (rateLimitWait s).now = t := by
          have h3 := List.append_cancel_left (hev.symm.trans h)
          simpa using h3
        refine ⟨by rw [hlast]; exact hw, ?_⟩
        rw [← hw]
        exact rateLimitWait_now_ge s
      · have hgenEq : generate_ai_explanation cfg api issue model s
            = (v, { s2 with
                cache := (((generate_ai_prompt issue, model), v) :: s2.cache).take CACHE_MAXSIZE }) := by
          simp [generate_ai_explanation, cached_call, hkey, hgen, hl, hcg]
        rw [hgenEq] at h ⊢
        simp only at h ⊢
        have hw : (rateLimitWait s).now = t := by
          have h3 := List.append_cancel_left (hev.symm.trans h)
          simpa using h3
        refine ⟨by rw [hlast]; exact hw, ?_⟩
        rw [← hw]
        exact rateLimitWait_now_ge s
    · have hgenEq : generate_ai_explanation cfg api issue model s
          = (v, { s with
              cache := ((generate_ai_prompt issue, model), v)
                :: s.cache.eraseP (fun e => decide (e.1 = (generate_ai_prompt issue, model))) }) := by
        simp [generate_ai_explanation, cached_call, hkey, hgen, hl]
      rw [hgenEq] at h
      simp only at h
      have := congrArg List.length h
      simp at this

/-- C7: whenever two consecutive explanation requests each reach the external
API (each appends one API event), the two call times are separated by at
least the minimum configured interval of 0.8 time-units. -/
theorem rate_limit_min_interval (cfg : AIConfig) (api : GenaiOracle) (f1 f2 : Finding)
    (m1 m2 : String) (s0 : AIState) (t1 t2 : ℚ)
    (h1 : ((generate_ai_explanation cfg api f1 m1 s0).2).apiEvents
        = s0.apiEvents ++ [t1])
    (h2 : ((generate_ai_explanation cfg api f2 m2
          ((generate_ai_explanation cfg api f1 m1 s0).2)).2).apiEvents
        = ((generate_ai_explanation cfg api f1 m1 s0).2).apiEvents ++ [t2]) :
    t1 + MIN_CALL_INTERVAL ≤ t2 := by
  obtain ⟨hl1, _⟩ := gen_event cfg api f1 m1 s0 t1 h1
  obtain ⟨_, hb2⟩ := gen_event cfg api f2 m2 _ t2 h2
  rw [hl1] at hb2
  exact hb2

set_option maxRecDepth 200000 in
/-- Witness for C7: a concrete back-to-back run from the zero state places the
two calls at times 0.8 and 1.6. -/
theorem rate_limit_min_interval_witness : (0.8 : ℚ) + MIN_CALL_INTERVAL ≤ 1.6 := by
  refine rate_limit_min_interval ⟨some "key", true⟩
    (fun _ _ => Except.ok (some ⟨some "All good"⟩)) missingHttpsFinding
    ⟨"Server Information Exposed", "Medium", "d", "x"⟩ "gemini-2.0-flash" "gemini-2.0-flash"
    ⟨0, 0, [], []⟩ 0.8 1.6 ?_ ?_
  · with_unfolding_all rfl
  · with_unfolding_all rfl

/-- C5 (amended): when the external call for the shared prompt text returns
normally (no exception), two back-to-back explanation requests rendering
identical prompt text trigger at most one external API invocation — the
second is served from the cache keyed by the exact prompt text — and both
return the same string. -/
theorem explain_shared_cache (cfg : AIConfig) (api : GenaiOracle) (f1 f2 : Finding)
    (model : String) (s0 : AIState) (r : Option GenaiResponse)
    (hkey : pyTruthy cfg.apiKey = true) (hgenai : cfg.genaiAvailable = true)
    (hprompt : generate_ai_prompt f1 = generate_ai_prompt f2)
    (hok : api (generate_ai_prompt f1) model = .ok r) :
    ((generate_ai_explanation cfg api f2 model
        ((generate_ai_explanation cfg api f1 model s0).2)).2).apiEvents.length
      ≤ s0.apiEvents.length + 1
    ∧ (generate_ai_explanation cfg api f1 model s0).1
      = (generate_ai_explanation cfg api f2 model
          ((generate_ai_explanation cfg api f1 model s0).2)).1 := by
  rcases hl : lruLookup (generate_ai_prompt f1, model) s0.cache with _ | v
  · obtain ⟨v, hv⟩ := call_gemini_fst_ok api (generate_ai_prompt f1) model s0 r hok
    rcases hcg : call_gemini_for_prompt api (generate_ai_prompt f1) model s0 with ⟨cr, s2⟩
    rw [hcg] at hv
    simp only at hv
    subst hv
    have hfacts := call_gemini_stateFacts api (generate_ai_prompt f1) model s0
    rw [hcg] at hfacts
    simp only at hfacts
    obtain ⟨hev, -, -, -⟩ := hfacts
    have hgen1 : generate_ai_explanation cfg api f1 model s0
        = (v, { s2 with
            cache := (((generate_ai_prompt f1, model), v) :: s2.cache).take CACHE_MAXSIZE }) := by
      simp [generate_ai_explanation, cached_call, hkey, hgenai, hl, hcg]
    have hlook2 : lruLookup (generate_ai_prompt f2, model)
        ((((generate_ai_prompt f1, model), v) :: s2.cache).take CACHE_MAXSIZE) = some v := by
      rw [← hprompt, show CACHE_MAXSIZE = 255 + 1 from rfl, List.take_succ_cons]
      exact lruLookup_cons_self _ _ _
    rw [hgen1]
    simp only
    constructor
    · have hx : ((generate_ai_explanation cfg api f2 model
          { s2 with
            cache := (((generate_ai_prompt f1, model), v) :: s2.cache).take CACHE_MAXSIZE }).2).apiEvents
          = s2.apiEvents := by
        simp [generate_ai_explanation, cached_call, hkey, hgenai, hlook2]
      rw [hx, hev]
      simp
    · have hx : (generate_ai_explanation cfg api f2 model
          { s2 with
            cache := (((generate_ai_prompt f1, model), v) :: s2.cache).take CACHE_MAXSIZE }).1
          = v := by
        simp [generate_ai_explanation, cached_call, hkey, hgenai, hlook2]
      rw [hx]
  · have hgen1 : generate_ai_explanation cfg api f1 model s0
        = (v, { s0 with
            cache := ((generate_ai_prompt f1, model), v)
              :: s0.cache.eraseP (fun e => decide (e.1 = (generate_ai_prompt f1, model))) }) := by
      simp [generate_ai_explanation, cached_call, hkey, hgenai, hl]
    have hlook2 : lruLookup (generate_ai_prompt f2, model)
        (((generate_ai_prompt f1, model), v)
          :: s0.cache.eraseP (fun e => decide (e.1 = (generate_ai_prompt f1, model)))) = some v := by
      rw [← hprompt]
      exact lruLookup_cons_self _ _ _
    rw [hgen1]
    simp only
    constructor
    · have hx : ((generate_ai_explanation cfg api f2 model
          { s0 with
            cache := ((generate_ai_prompt f1, model), v)
              :: s0.cache.eraseP (fun e => decide (e.1 = (generate_ai_prompt f1, model))) }).2).apiEvents
          = s0.apiEvents := by
        simp [generate_ai_explanation, cached_call, hkey, hgenai, hlook2]
      rw [hx]
      simp
    · have hx : (generate_ai_explanation cfg api f2 model
          { s0 with
            cache := ((generate_ai_prompt f1, model), v)
              :: s0.cache.eraseP (fun e => decide (e.1 = (generate_ai_prompt f1, model))) }).1
          = v := by
        simp [generate_ai_explanation, cached_call, hkey, hgenai, hlook2]
      rw [hx]

set_option maxRecDepth 200000 in
/-- Counterexample to C5 as stated: when the external call raises (here the
oracle always raises "boom"), nothing is cached (`lru_cache` does not cache
exceptions), so two calls with identical prompt text trigger two external
API invocations, not at most one. -/
theorem explain_shared_cache_counterexample :
    (((generate_ai_explanation ⟨some "key", true⟩ (fun _ _ => Except.error "boom")
        missingHttpsFinding "gemini-2.0-flash"
        ((generate_ai_explanation ⟨some "key", true⟩ (fun _ _ => Except.error "boom")
          missingHttpsFinding "gemini-2.0-flash"
          ⟨0, 0, [], []⟩).2)).2).apiEvents).length = 2
    ∧ ¬ ((((generate_ai_explanation ⟨some "key", true⟩ (fun _ _ => Except.error "boom")
        missingHttpsFinding "gemini-2.0-flash"
        ((generate_ai_explanation ⟨some "key", true⟩ (fun _ _ => Except.error "boom")
          missingHttpsFinding "gemini-2.0-flash"
          ⟨0, 0, [], []⟩).2)).2).apiEvents).length
        ≤ (⟨0, 0, [], []⟩ : AIState).apiEvents.length + 1) := by
  have h : (((generate_ai_explanation ⟨some "key", true⟩ (fun _ _ => Except.error "boom")
      missingHttpsFinding "gemini-2.0-flash"
      ((generate_ai_explanation ⟨some "key", true⟩ (fun _ _ => Except.error "boom")
        missingHttpsFinding "gemini-2.0-flash"
        ⟨0, 0, [], []⟩).2)).2).apiEvents).length = 2 := by
    with_unfolding_all rfl
  refine ⟨h, ?_⟩
  rw [h]
  decide

set_option maxRecDepth 200000 in
/-- Witness for C5 (amended) at a concrete succeeding oracle. -/
theorem explain_shared_cache_witness :
    ((generate_ai_explanation ⟨some "key", true⟩
        (fun _ _ => Except.ok (some ⟨some "All good"⟩)) missingHttpsFinding "gemini-2.0-flash"
        ((generate_ai_explanation ⟨some "key", true⟩
          (fun _ _ => Except.ok (some ⟨some "All good"⟩)) missingHttpsFinding "gemini-2.0-flash"
          ⟨0, 0, [], []⟩).2)).2).apiEvents.length
      ≤ (⟨0, 0, [], []⟩ : AIState).apiEvents.length + 1
    ∧ (generate_ai_explanation ⟨some "key", true⟩
        (fun _ _ => Except.ok (some ⟨some "All good"⟩)) missingHttpsFinding "gemini-2.0-flash"
        ⟨0, 0, [], []⟩).1
      = (generate_ai_explanation ⟨some "key", true⟩
          (fun _ _ => Except.ok (some ⟨some "All good"⟩)) missingHttpsFinding "gemini-2.0-flash"
          ((generate_ai_explanation ⟨some "key", true⟩
            (fun _ _ => Except.ok (some ⟨some "All good"⟩)) missingHttpsFinding "gemini-2.0-flash"
            ⟨0, 0, [], []⟩).2)).1 :=
  explain_shared_cache ⟨some "key", true⟩ (fun _ _ => Except.ok (some ⟨some "All good"⟩))
    missingHttpsFinding missingHttpsFinding "gemini-2.0-flash" ⟨0, 0, [], []⟩
    (some ⟨some "All good"⟩) (by decide) rfl rfl rfl

end SecureSight
